import Mathlib

/-!
Shallow embedding of `LinkCell.tsx` (the link-cell custom renderer of the
DataFrame widget) and proofs about its behavioral contract: display-value
resolution, hit-testing, measurement, and the paste/delete mutations.

JavaScript-specific conventions used throughout the embedding:
  an optional / possibly-`undefined` string is `Option String` with `none`
  for `undefined`; a JavaScript `number` is modelled as a rational `ℚ`;
  the platform regex engine and the canvas text-measurement service are
  external collaborators and enter as explicit function parameters.
-/

namespace LinkCellSpec

/-- Model of a JavaScript `String.prototype.match` result array: index 0 is
the full match and index `i` (for `i ≥ 1`) is the text captured by group
`i`; `none` at an index models a capturing group that did not participate
in the match. -/
abbrev JSMatchArray := List (Option String)

/-- Model of the platform regex service used by `getLinkDisplayValue`:
given the pattern string (the `displayText` hint) and the input string
(the `href`), it either throws (`Except.error ()`, covering a failing
`new RegExp(displayText, "us")` compilation as well as any error raised
while matching), returns `Except.ok none` (JavaScript `null`: the pattern
compiled but did not match), or returns `Except.ok (some a)` with the match
array `a`. -/
abbrev RegexEngine := String → String → Except Unit (Option JSMatchArray)

/-- JavaScript array indexing `a[i]`: an out-of-range access yields
`undefined` (`none`), and an index holding `undefined` also yields `none`. -/
def jsIndex (a : JSMatchArray) (i : Nat) : Option String := (a.get? i).join

/-- JavaScript string coercion applied when a possibly-`undefined` value is
passed where a string is expected (such as `ctx.measureText` or
`ctx.fillText`): `undefined` coerces to the literal string "undefined". -/
def jsToString : Option String → String
  | none => "undefined"
  | some s => s

/-- Embedding of `getLinkDisplayValue(href, displayText)` from
`LinkCell.tsx` lines 66–93. `displayText = none` models the JavaScript
`undefined`; the source's falsiness check `!displayText` is true for both
`undefined` and the empty string. On a successful match the source returns
`patternMatch[1]`, which is `undefined` (here `none`) when the pattern has
no capturing group or when group 1 did not participate in the match; the
result type is therefore `Option String` even though the source declares
`string`. -/
def getLinkDisplayValue (rm : RegexEngine) (href : String)
    (displayText : Option String) : Option String :=
  match displayText with
  | none => some href
  | some dt =>
    if dt = "" then some href
    else
      match rm dt href with
      | .error _ => some dt
      | .ok none => some dt
      | .ok (some patternMatch) => jsIndex patternMatch 1

/-- Runtime behavior of `getLinkDisplayValue` when the `href` argument is
the JavaScript value `undefined` (reachable because `onClickSelect` reads
`cell.data.href` without a guard): `!displayText` still returns `href`,
that is `undefined`; otherwise `href.match(...)` throws a TypeError that
the surrounding `try` catches, so `displayText` is returned. For a string
`href` this is exactly `getLinkDisplayValue`. -/
def getLinkDisplayValueRT (rm : RegexEngine) (href displayText : Option String) :
    Option String :=
  match href with
  | some h => getLinkDisplayValue rm h displayText
  | none =>
    match displayText with
    | none => none
    | some dt => if dt = "" then none else some dt

/-- Embedding of the `LinkCellProps` interface. `href` is declared `string`
in the source, but the renderer explicitly tests `href === undefined`
(`draw` line 99, `measure` line 150), so it is modelled as `Option String`;
`displayText` is optional in the source. -/
structure LinkCellProps where
  kind : String
  href : Option String
  displayText : Option String
deriving DecidableEq

/-- Embedding of `LinkCell = CustomCell<LinkCellProps>`: the cell-level
fields of the host grid's custom cell that `onDelete` spreads through
unchanged alongside `data`. -/
structure LinkCell where
  kind : String
  data : LinkCellProps
  copyData : String
  allowOverlay : Bool
  readonly : Option Bool
deriving DecidableEq

/-- Cell geometry (`bounds` / `rect`) supplied by the host grid per call;
pixel quantities are JavaScript numbers, modelled as rationals. -/
structure Rect where
  x : ℚ
  y : ℚ
  width : ℚ
  height : ℚ

/-- The theme token this cell reads for hit-testing and measurement
geometry. Fonts and colors only select which text-measurement function the
host supplies, so they are absorbed into the `mt` parameter below. -/
structure Theme where
  cellHorizontalPadding : ℚ

/-- The `textWidth` computed at `onClickSelect` lines 53–55: the measured
pixel width of the resolved display value plus the theme's horizontal cell
padding on both sides. `mt` is the host text-measurement service
(`ctx.measureText(·).width` for the theme's font). -/
def activationTextWidth (rm : RegexEngine) (mt : String → ℚ)
    (data : LinkCellProps) (theme : Theme) : ℚ :=
  mt (jsToString (getLinkDisplayValueRT rm data.href data.displayText)) +
    theme.cellHorizontalPadding * 2

/-- The activation hit test of `onClickSelect` line 57: with
`rectHoverX = rect.x + hoverX`, the pointer is in the activation zone iff
`rectHoverX > rect.x && rectHoverX < rect.x + textWidth`, strict on both
sides. -/
def inActivationZone (rm : RegexEngine) (mt : String → ℚ) (rect : Rect)
    (data : LinkCellProps) (theme : Theme) (hoverX : ℚ) : Bool :=
  decide (rect.x < rect.x + hoverX) &&
    decide (rect.x + hoverX < rect.x + activationTextWidth rm mt data theme)

/-- The hover test of `linkCellRenderer.draw` line 114: with
`rectHoverX = rect.x + hoverX`, the cell counts as hovered iff
`rectHoverX > rect.x && rectHoverX < rect.x + rect.width` — the full cell
width, independent of the rendered text. -/
def inHoverZone (rect : Rect) (hoverX : ℚ) : Bool :=
  decide (rect.x < rect.x + hoverX) &&
    decide (rect.x + hoverX < rect.x + rect.width)

/-- Embedding of `onClickSelect` (lines 38–64): returns the cell's `href`
when the pointer is inside the activation zone and `undefined` (`none`)
otherwise. The source performs no emptiness or definedness check on `href`
here. (The early return at line 43 when the scratch canvas yields no 2D
context models a host-platform failure and is not represented.)
`onSelect` (lines 159–164) then calls `window.open` on the result exactly
when it is not `undefined`, so `some link` means "open `link`". -/
def onClickSelect (rm : RegexEngine) (mt : String → ℚ) (hoverX : ℚ)
    (rect : Rect) (data : LinkCellProps) (theme : Theme) : Option String :=
  if inActivationZone rm mt rect data theme hoverX then data.href else none

/-- Embedding of `linkCellRenderer.measure` (lines 148–156): 0 when `href`
is `undefined`, otherwise the measured width of the resolved display value
plus the horizontal padding on both sides. Only `href === undefined` is
checked; an empty-string `href` takes the second branch. -/
def measure (rm : RegexEngine) (mt : String → ℚ) (data : LinkCellProps)
    (theme : Theme) : ℚ :=
  match data.href with
  | none => 0
  | some h =>
    mt (jsToString (getLinkDisplayValue rm h data.displayText)) +
      theme.cellHorizontalPadding * 2

/-- Embedding of `linkCellRenderer.onPaste` (lines 198–202): `undefined`
(signal "no change") when the pasted text strictly equals the current
`href`, otherwise the cell data spread through with `href` replaced. -/
def onPaste (toPaste : String) (cellData : LinkCellProps) :
    Option LinkCellProps :=
  if cellData.href = some toPaste then none
  else some { cellData with href := some toPaste }

/-- Embedding of `linkCellRenderer.onDelete` (lines 166–173): spreads the
cell and its data, setting `displayText` and `href` to the empty string. -/
def onDelete (c : LinkCell) : LinkCell :=
  { c with data := { c.data with displayText := some "", href := some "" } }

/-- A regex-engine instance on which no pattern ever matches. -/
def rmNever : RegexEngine := fun _ _ => Except.ok none

/-- A regex-engine instance on which every pattern throws at compilation,
as the malformed pattern "(" does. -/
def rmThrows : RegexEngine := fun _ _ => Except.error ()

/-- A regex-engine instance recording that the pattern `users/(\d+)`
matches `https://example.com/users/42` with full match `users/42` and
first capturing group `42`. -/
def rmUsersExample : RegexEngine := fun p h =>
  if p = "users/(\\d+)" ∧ h = "https://example.com/users/42" then
    Except.ok (some [some "users/42", some "42"])
  else Except.ok none

/-- A regex-engine instance recording that the pattern `b` — which has no
capturing group — matches `abc`, with match array `["b"]`. -/
def rmNoGroup : RegexEngine := fun p h =>
  if p = "b" ∧ h = "abc" then Except.ok (some [some "b"])
  else Except.ok none

/-- Theorem for claim C9: for every regex engine and every `href`,
resolving with `displayText` absent (`undefined`) or equal to the empty
string returns `href` unchanged. -/
theorem C9_resolve_without_displayText_returns_href (rm : RegexEngine)
    (href : String) :
    getLinkDisplayValue rm href none = some href ∧
      getLinkDisplayValue rm href (some "") = some href := by
  exact ⟨rfl, by simp [getLinkDisplayValue]⟩

/-- Theorem for claim C7: whenever the pattern compiles, matches `href`,
and its first capturing group participated in the match (so that
`patternMatch[1]` holds the captured text `s`), resolution returns exactly
that first captured group. -/
theorem C7_resolve_returns_first_capture_group (rm : RegexEngine)
    (href dt s : String) (a : JSMatchArray) (hdt : dt ≠ "")
    (hm : rm dt href = Except.ok (some a)) (h1 : jsIndex a 1 = some s) :
    getLinkDisplayValue rm href (some dt) = some s := by
  simp [getLinkDisplayValue, hdt, hm, h1]

/-- Witness for C7 at the spec's own example:
`resolve("https://example.com/users/42", "users/(\d+)") = "42"`. -/
theorem C7_resolve_returns_first_capture_group_witness :
    getLinkDisplayValue rmUsersExample "https://example.com/users/42"
      (some "users/(\\d+)") = some "42" :=
  C7_resolve_returns_first_capture_group rmUsersExample
    "https://example.com/users/42" "users/(\\d+)" "42"
    [some "users/42", some "42"] (by decide) (by simp [rmUsersExample])
    (by simp [jsIndex])

/-- Theorem for claim C8: whenever the non-empty pattern either throws
(malformed regex) or compiles but does not match `href`, resolution
returns `displayText` unchanged; the embedding is a total function, so no
error escapes. -/
theorem C8_resolve_fallback_on_error_or_no_match (rm : RegexEngine)
    (href dt : String) (hdt : dt ≠ "")
    (hm : rm dt href = Except.error () ∨ rm dt href = Except.ok none) :
    getLinkDisplayValue rm href (some dt) = some dt := by
  rcases hm with hm | hm <;> simp [getLinkDisplayValue, hdt, hm]

/-- Witness for C8 at the malformed pattern "(": resolution returns the
hint text itself. -/
theorem C8_resolve_fallback_witness :
    getLinkDisplayValue rmThrows "https://example.com" (some "(") = some "(" :=
  C8_resolve_fallback_on_error_or_no_match rmThrows "https://example.com" "("
    (by decide) (Or.inl rfl)

/-- Theorem for claim C1, evaluating the embedding at the failing input:
the pattern `b` matches `abc` but has no capturing group, and
`getLinkDisplayValue` returns `patternMatch[1]` — JavaScript `undefined`
(`none`) — rather than the literal `displayText` value `"b"` that the
claim states. -/
theorem C1_zero_group_match_returns_undefined :
    getLinkDisplayValue rmNoGroup "abc" (some "b") = none ∧
      getLinkDisplayValue rmNoGroup "abc" (some "b") ≠ some "b" := by
  constructor <;> simp [getLinkDisplayValue, rmNoGroup, jsIndex]

/-- A constant text-measurement service: every string measures 50 pixels. -/
def mtConst50 : String → ℚ := fun _ => 50

/-- A proportional text-measurement service: 7 pixels per character, so the
empty string measures 0. -/
def mtSevenPerChar : String → ℚ := fun s => 7 * s.length

/-- Concrete cell data with a plain `href` and no display hint. -/
def dataHrefX : LinkCellProps :=
  { kind := "link-cell", href := some "https://x", displayText := none }

/-- Concrete cell data whose `href` is the empty string. -/
def dataEmptyHref : LinkCellProps :=
  { kind := "link-cell", href := some "", displayText := none }

/-- Concrete cell data whose `href` is `undefined`. -/
def dataNoHref : LinkCellProps :=
  { kind := "link-cell", href := none, displayText := none }

/-- A wide cell: 100 pixels starting at x = 0. -/
def rectWide : Rect := { x := 0, y := 0, width := 100, height := 20 }

/-- A narrow cell: 10 pixels starting at x = 0. -/
def rectNarrow : Rect := { x := 0, y := 0, width := 10, height := 20 }

/-- A theme with 4 pixels of horizontal cell padding. -/
def themeFour : Theme := { cellHorizontalPadding := 4 }

/-- A theme with zero horizontal cell padding. -/
def themeZero : Theme := { cellHorizontalPadding := 0 }

/-- Counterexample for claim C2: when the rendered text overflows the cell
(text measured 50 pixels wide, cell 10 pixels wide, padding 0), the pointer
offset 20 is inside the activation zone but outside the hover zone, so the
hover zone does not contain the activation zone. -/
theorem C2_activation_not_in_hover_counterexample :
    inActivationZone rmNever mtConst50 rectNarrow dataHrefX themeZero 20 = true ∧
      inHoverZone rectNarrow 20 = false := by
  constructor <;>
    norm_num [inActivationZone, inHoverZone, activationTextWidth,
      getLinkDisplayValueRT, getLinkDisplayValue, jsToString, rmNever,
      mtConst50, dataHrefX, themeZero, rectNarrow]

/-- Theorem for claim C2 as amended: whenever the activation-zone width
(measured resolved text plus twice the padding) does not exceed the cell
width, every pointer offset inside the activation zone is also inside the
hover zone. Unrestricted, the claim fails when the rendered text overflows
the cell, because the hover test uses `rect.width` while the activation
test uses the measured text width. -/
theorem C2_hover_contains_activation_without_overflow (rm : RegexEngine)
    (mt : String → ℚ) (rect : Rect) (data : LinkCellProps) (theme : Theme)
    (hoverX : ℚ) (_hpad : 0 ≤ theme.cellHorizontalPadding)
    (hw : activationTextWidth rm mt data theme ≤ rect.width)
    (hin : inActivationZone rm mt rect data theme hoverX = true) :
    inHoverZone rect hoverX = true := by
  simp only [inActivationZone, Bool.and_eq_true, decide_eq_true_eq] at hin
  simp only [inHoverZone, Bool.and_eq_true, decide_eq_true_eq]
  exact ⟨hin.1, lt_of_lt_of_le hin.2 (by linarith)⟩

/-- Witness for the amended C2: padding 4, text measured 50 wide, cell 100
wide, pointer offset 20 — in the activation zone, hence in the hover zone. -/
theorem C2_hover_contains_activation_witness :
    inHoverZone rectWide 20 = true :=
  C2_hover_contains_activation_without_overflow rmNever mtConst50 rectWide
    dataHrefX themeFour 20 (by norm_num [themeFour])
    (by norm_num [activationTextWidth, getLinkDisplayValueRT,
      getLinkDisplayValue, jsToString, rmNever, mtConst50, dataHrefX,
      themeFour, rectWide])
    (by norm_num [inActivationZone, activationTextWidth,
      getLinkDisplayValueRT, getLinkDisplayValue, jsToString, rmNever,
      mtConst50, dataHrefX, themeFour, rectWide])

/-- Counterexample for claim C3: a cell whose `href` is the empty string.
`onClickSelect` never checks `href` for emptiness, so with padding 4 and
pointer offset 2 it returns the empty string — which is not `undefined`, so
`onSelect` calls `window.open("", "_blank")`: an activation is surfaced.
`measure` checks only `href === undefined`, returning 8 rather than 0. -/
theorem C3_empty_href_counterexample :
    onClickSelect rmNever mtSevenPerChar 2 rectWide dataEmptyHref themeFour
        = some "" ∧
      measure rmNever mtSevenPerChar dataEmptyHref themeFour = 8 := by
  constructor <;>
    norm_num [onClickSelect, inActivationZone, activationTextWidth,
      getLinkDisplayValueRT, getLinkDisplayValue, jsToString, measure,
      rmNever, mtSevenPerChar, dataEmptyHref, themeFour, rectWide]

/-- Theorem for claim C3 as amended: for every cell whose `href` is
`undefined`, every pointer position, geometry, regex engine,
text-measurement service and theme, `onClickSelect` returns `undefined`
(so `onSelect` opens nothing) and `measure` returns 0. The original
claim's empty-string case fails: the source short-circuits only on
`href === undefined`. -/
theorem C3_undefined_href_is_inert (rm : RegexEngine) (mt : String → ℚ)
    (hoverX : ℚ) (rect : Rect) (data : LinkCellProps) (theme : Theme)
    (hh : data.href = none) :
    onClickSelect rm mt hoverX rect data theme = none ∧
      measure rm mt data theme = 0 := by
  refine ⟨?_, ?_⟩
  · simp [onClickSelect, hh]
  · simp [measure, hh]

/-- Witness for the amended C3 at a concrete undefined-`href` cell. -/
theorem C3_undefined_href_is_inert_witness :
    onClickSelect rmNever mtSevenPerChar 2 rectWide dataNoHref themeFour
        = none ∧
      measure rmNever mtSevenPerChar dataNoHref themeFour = 0 :=
  C3_undefined_href_is_inert rmNever mtSevenPerChar 2 rectWide dataNoHref
    themeFour rfl

/-- Theorem for claim C4: for identical inputs with `href` present, the
width returned by `measure` equals the activation zone's right boundary
`rect.x + textWidth` minus the cell's left edge `rect.x`, and both equal
the measured width of the resolved display value plus twice the horizontal
cell padding. -/
theorem C4_measure_equals_activation_zone_width (rm : RegexEngine)
    (mt : String → ℚ) (rect : Rect) (data : LinkCellProps) (theme : Theme)
    (h : String) (hh : data.href = some h) :
    measure rm mt data theme =
        (rect.x + activationTextWidth rm mt data theme) - rect.x ∧
      measure rm mt data theme =
        mt (jsToString (getLinkDisplayValue rm h data.displayText)) +
          theme.cellHorizontalPadding * 2 := by
  obtain ⟨k, hr, dt⟩ := data
  simp only [LinkCellProps.href] at hh
  subst hh
  constructor
  · simp [measure, activationTextWidth, getLinkDisplayValueRT]
  · simp [measure]

/-- Witness for C4 at a concrete cell, theme, and measurement service. -/
theorem C4_measure_equals_activation_zone_width_witness :
    measure rmNever mtConst50 dataHrefX themeFour =
        (rectWide.x + activationTextWidth rmNever mtConst50 dataHrefX themeFour)
          - rectWide.x ∧
      measure rmNever mtConst50 dataHrefX themeFour =
        mtConst50 (jsToString (getLinkDisplayValue rmNever "https://x"
          dataHrefX.displayText)) + themeFour.cellHorizontalPadding * 2 :=
  C4_measure_equals_activation_zone_width rmNever mtConst50 rectWide dataHrefX
    themeFour "https://x" rfl

/-- Theorem for claim C5: pasting text equal to the current `href` signals
"no change" (`undefined`); pasting different text yields a record whose
`href` is the pasted text with `displayText` (and the `kind` discriminator)
unchanged. -/
theorem C5_onPaste_contract (toPaste : String) (d : LinkCellProps) :
    (d.href = some toPaste → onPaste toPaste d = none) ∧
      (d.href ≠ some toPaste →
        onPaste toPaste d =
          some (LinkCellProps.mk d.kind (some toPaste) d.displayText)) := by
  constructor <;> intro h <;> simp [onPaste, h]

/-- Witness for C5: pasting the identical `href` signals no change, and
pasting a different text replaces `href` while keeping `displayText`. -/
theorem C5_onPaste_contract_witness :
    onPaste "https://a"
        (LinkCellProps.mk "link-cell" (some "https://a") (some "d")) = none ∧
      onPaste "https://b"
        (LinkCellProps.mk "link-cell" (some "https://a") (some "d")) =
        some (LinkCellProps.mk "link-cell" (some "https://b") (some "d")) :=
  ⟨(C5_onPaste_contract "https://a"
      (LinkCellProps.mk "link-cell" (some "https://a") (some "d"))).1 rfl,
   (C5_onPaste_contract "https://b"
      (LinkCellProps.mk "link-cell" (some "https://a") (some "d"))).2
      (by decide)⟩

/-- Theorem for claim C6: `onDelete` is total and returns the cell with
`href` and `displayText` both set to the empty string while every other
field — the data record's `kind` discriminator and the cell-level `kind`,
`copyData`, `allowOverlay` and `readonly` — is unchanged. -/
theorem C6_onDelete_clears_href_and_displayText (c : LinkCell) :
    (onDelete c).data.href = some "" ∧
      (onDelete c).data.displayText = some "" ∧
      (onDelete c).data.kind = c.data.kind ∧
      (onDelete c).kind = c.kind ∧
      (onDelete c).copyData = c.copyData ∧
      (onDelete c).allowOverlay = c.allowOverlay ∧
      (onDelete c).readonly = c.readonly := by
  simp [onDelete]

/-- Theorem for claim C10: the activation zone is open at both ends — a
pointer at offset exactly 0 (the cell's left edge) or exactly at the
measured text width plus twice the horizontal padding yields no activation
target, because both hit-test inequalities are strict. -/
theorem C10_activation_zone_excludes_boundaries (rm : RegexEngine)
    (mt : String → ℚ) (rect : Rect) (data : LinkCellProps) (theme : Theme)
    (h : String) (_hh : data.href = some h) (_hne : h ≠ "") :
    onClickSelect rm mt 0 rect data theme = none ∧
      onClickSelect rm mt (activationTextWidth rm mt data theme) rect data
        theme = none := by
  constructor
  · simp [onClickSelect, inActivationZone]
  · simp [onClickSelect, inActivationZone]

/-- Witness for C10 at a concrete non-empty-`href` cell. -/
theorem C10_activation_zone_excludes_boundaries_witness :
    onClickSelect rmNever mtConst50 0 rectWide dataHrefX themeFour = none ∧
      onClickSelect rmNever mtConst50
        (activationTextWidth rmNever mtConst50 dataHrefX themeFour) rectWide
        dataHrefX themeFour = none :=
  C10_activation_zone_excludes_boundaries rmNever mtConst50 rectWide dataHrefX
    themeFour "https://x" rfl (by decide)

end LinkCellSpec
